import Mathlib

/-!
Verification of the football-tournament CRUD API
(`cgonzalezvera/football-tournament-api-native`).

The Go program is a three-layer application (HTTP handlers → use cases →
PostgreSQL repositories).  We shallowly embed it:

* UUIDs (external `github.com/google/uuid`) are modelled as `Nat`; the
  external `uuid.Parse` is modelled as decimal parsing,
  which keeps its two relevant behaviours: it can fail on malformed input
  and it is injective on well-formed input.  `uuid.New()` freshness is
  expressed by explicit id parameters plus freshness hypotheses.
* `time.Time` values are modelled as `Nat` timestamps; the Go zero value of
  `time.Time` is `0`.  The external `time.Parse(RFC3339, ·)` (helpers.go
  `parseDateTime`) is likewise modelled as a fallible `String → Option Nat`.
* The PostgreSQL database (external collaborator; schema in the repo's
  init SQL) is a record of lists of rows.  Each repository method is
  translated from its SQL statement: `INSERT` appends (failing on a
  primary-key / unique violation per the schema), `UPDATE ... WHERE id`
  maps over rows, `DELETE ... WHERE` filters and counts affected rows,
  `ORDER BY k` sorts by the named key, and `ON DELETE CASCADE` removes
  dependent rows.  Fallible operations return `Except String α`, with the
  error string matching the Go error message.
-/

/-- `internal/domain/player.go`: the `Player` entity. -/
structure Player where
  id : Nat
  name : String
  dateBirth : Nat
  createdAt : Nat
deriving Repr, DecidableEq, Inhabited

/-- `internal/domain/team.go`: the `Team` entity.  The optional
`Players` attachment is never populated by any repository query we model
(row scans read only id, name, created_at), so it is omitted. -/
structure Team where
  id : Nat
  name : String
  createdAt : Nat
deriving Repr, DecidableEq, Inhabited

/-- `internal/domain/tournament.go`: the `Tournament` entity (optional
`Teams` attachment omitted for the same reason as `Team.Players`). -/
structure Tournament where
  id : Nat
  name : String
  createdAt : Nat
deriving Repr, DecidableEq, Inhabited

/-- `internal/domain/match.go`: the `Match` entity (optional `Team1`/`Team2`
pointers omitted: no modelled query populates them). -/
structure Match where
  id : Nat
  matchNumber : Int
  date : Nat
  team1Id : Nat
  team2Id : Nat
  goalScoredTeam1 : Int
  goalScoredTeam2 : Int
  createdAt : Nat
deriving Repr, DecidableEq, Inhabited

/-- The relational store (external collaborator): one list of rows per
table of the schema.  Join-table rows are (parent id, child id) pairs;
the `joined_at` column is never read by any modelled query and is omitted.
The SQL table named `matches` is the field `matchRows` (`matches` is a
reserved token in Lean). -/
structure DB where
  players : List Player
  teams : List Team
  tournaments : List Tournament
  matchRows : List Match
  teamPlayers : List (Nat × Nat)
  tournamentTeams : List (Nat × Nat)
deriving Repr, DecidableEq, Inhabited

/-- Decimal accumulator: fails on the first non-digit character. -/
def parseDecimalAux : List Char → Nat → Option Nat
  | [], acc => some acc
  | c :: cs, acc =>
    if '0'.toNat ≤ c.toNat ∧ c.toNat ≤ '9'.toNat then
      parseDecimalAux cs (acc * 10 + (c.toNat - '0'.toNat))
    else
      none

/-- Model of the external `uuid.Parse` (see header comment): a fallible,
injective-on-success parse, concretely decimal. -/
def uuidParse (s : String) : Option Nat :=
  match s.data with
  | [] => none
  | cs => parseDecimalAux cs 0

/-- `internal/handler/helpers.go` `parseDateTime`: wraps the external
`time.Parse(time.RFC3339, dateStr)`; modelled as a fallible parse. -/
def parseDateTime (s : String) : Option Nat :=
  match s.data with
  | [] => none
  | cs => parseDecimalAux cs 0

/-- `domain.NewPlayer`: stamps the generated id (`uuid.New()`) and creation
time (`time.Now().UTC()`), here passed explicitly. -/
def NewPlayer (name : String) (dateBirth : Nat) (id now : Nat) : Player :=
  { id := id, name := name, dateBirth := dateBirth, createdAt := now }

/-- `domain.NewTeam`. -/
def NewTeam (name : String) (id now : Nat) : Team :=
  { id := id, name := name, createdAt := now }

/-- `domain.NewTournament`. -/
def NewTournament (name : String) (id now : Nat) : Tournament :=
  { id := id, name := name, createdAt := now }

/-- `domain.NewMatch`. -/
def NewMatch (matchNumber : Int) (date : Nat) (team1Id team2Id : Nat)
    (goals1 goals2 : Int) (id now : Nat) : Match :=
  { id := id, matchNumber := matchNumber, date := date, team1Id := team1Id,
    team2Id := team2Id, goalScoredTeam1 := goals1, goalScoredTeam2 := goals2,
    createdAt := now }

/-! ### Sorting (model of SQL `ORDER BY`)

PostgreSQL `ORDER BY k` returns the rows sorted by `k`; we model it with a
straightforward insertion sort on a boolean "comes-no-later-than" key. -/

def insertByKey (le : α → α → Bool) (a : α) : List α → List α
  | [] => [a]
  | b :: bs => if le a b then a :: b :: bs else b :: insertByKey le a bs

def sortByKey (le : α → α → Bool) : List α → List α
  | [] => []
  | a :: as => insertByKey le a (sortByKey le as)

/-! ### Player repository (`internal/repository/player_repository.go`) -/

namespace PostgresPlayerRepository

/-- `INSERT INTO players (id, name, date_birth, created_at) VALUES (...)`.
The schema declares `id UUID PRIMARY KEY`, so the insert fails when a row
with the same id already exists. -/
def Create (db : DB) (p : Player) : Except String DB :=
  if db.players.any (fun q => q.id = p.id) then
    .error "duplicate key value violates unique constraint"
  else
    .ok { db with players := db.players ++ [p] }

/-- `SELECT id, name, date_birth, created_at FROM players WHERE id = $1`
via `QueryRow`; `sql.ErrNoRows` becomes the error `"player not found"`. -/
def GetByID (db : DB) (id : Nat) : Except String Player :=
  match db.players.find? (fun p => p.id = id) with
  | none => .error "player not found"
  | some p => .ok p

/-- `SELECT ... FROM players ORDER BY created_at DESC`. -/
def GetAll (db : DB) : List Player :=
  sortByKey (fun a b => decide (b.createdAt ≤ a.createdAt)) db.players

/-- `UPDATE players SET name = $2, date_birth = $3 WHERE id = $1`;
zero rows affected becomes the error `"player not found"`. -/
def Update (db : DB) (p : Player) : Except String DB :=
  if db.players.any (fun q => q.id = p.id) then
    .ok { db with players := db.players.map (fun q =>
      if q.id = p.id then { q with name := p.name, dateBirth := p.dateBirth } else q) }
  else
    .error "player not found"

/-- `DELETE FROM players WHERE id = $1`; zero rows affected becomes the
error `"player not found"`.  The schema's `ON DELETE CASCADE` on
`team_players.player_id` also removes the player's membership rows. -/
def Delete (db : DB) (id : Nat) : Except String DB :=
  if db.players.any (fun p => p.id = id) then
    .ok { db with players := db.players.filter (fun p => ¬ p.id = id),
                  teamPlayers := db.teamPlayers.filter (fun r => ¬ r.2 = id) }
  else
    .error "player not found"

end PostgresPlayerRepository

/-! ### Team repository (`internal/repository/team_repository.go`) -/

namespace PostgresTeamRepository

/-- `INSERT INTO teams (id, name, created_at) VALUES (...)`; the schema
declares `id UUID PRIMARY KEY` and `name ... UNIQUE`. -/
def Create (db : DB) (t : Team) : Except String DB :=
  if db.teams.any (fun q => q.id = t.id ∨ q.name = t.name) then
    .error "duplicate key value violates unique constraint"
  else
    .ok { db with teams := db.teams ++ [t] }

/-- `SELECT id, name, created_at FROM teams WHERE id = $1`. -/
def GetByID (db : DB) (id : Nat) : Except String Team :=
  match db.teams.find? (fun t => t.id = id) with
  | none => .error "team not found"
  | some t => .ok t

/-- `SELECT id, name, created_at FROM teams ORDER BY created_at DESC`. -/
def GetAll (db : DB) : List Team :=
  sortByKey (fun a b => decide (b.createdAt ≤ a.createdAt)) db.teams

/-- `UPDATE teams SET name = $2 WHERE id = $1`; zero rows affected becomes
the error `"team not found"`. -/
def Update (db : DB) (t : Team) : Except String DB :=
  if db.teams.any (fun q => q.id = t.id) then
    .ok { db with teams := db.teams.map (fun q =>
      if q.id = t.id then { q with name := t.name } else q) }
  else
    .error "team not found"

/-- `DELETE FROM teams WHERE id = $1`; zero rows affected becomes the
error `"team not found"`.  Schema cascades: `team_players.team_id`,
`tournament_teams.team_id`, and both `matches.team1_id/team2_id`
references are `ON DELETE CASCADE`. -/
def Delete (db : DB) (id : Nat) : Except String DB :=
  if db.teams.any (fun t => t.id = id) then
    .ok { db with teams := db.teams.filter (fun t => ¬ t.id = id),
                  teamPlayers := db.teamPlayers.filter (fun r => ¬ r.1 = id),
                  tournamentTeams := db.tournamentTeams.filter (fun r => ¬ r.2 = id),
                  matchRows := db.matchRows.filter (fun m => ¬ (m.team1Id = id ∨ m.team2Id = id)) }
  else
    .error "team not found"

/-- `INSERT INTO team_players (team_id, player_id) VALUES ($1, $2)`;
composite primary key `(team_id, player_id)` rejects duplicates. -/
def AddPlayer (db : DB) (teamID playerID : Nat) : Except String DB :=
  if db.teamPlayers.any (fun r => r.1 = teamID ∧ r.2 = playerID) then
    .error "duplicate key value violates unique constraint"
  else
    .ok { db with teamPlayers := db.teamPlayers ++ [(teamID, playerID)] }

/-- `DELETE FROM team_players WHERE team_id = $1 AND player_id = $2`;
the affected-row count is discarded, so the call always succeeds. -/
def RemovePlayer (db : DB) (teamID playerID : Nat) : Except String DB :=
  .ok { db with teamPlayers :=
    db.teamPlayers.filter (fun r => ¬ (r.1 = teamID ∧ r.2 = playerID)) }

/-- `SELECT p.* FROM players p INNER JOIN team_players tp ON p.id =
tp.player_id WHERE tp.team_id = $1 ORDER BY p.name`.  The composite
primary key of `team_players` makes the join multiplicity at most one per
player, so the join is a filter over `players`. -/
def GetTeamPlayers (db : DB) (teamID : Nat) : List Player :=
  sortByKey (fun a b => decide (a.name ≤ b.name))
    (db.players.filter (fun p =>
      db.teamPlayers.any (fun r => r.1 = teamID ∧ r.2 = p.id)))

end PostgresTeamRepository

/-! ### Tournament repository (`internal/repository/tournament_repository.go`) -/

namespace PostgresTournamentRepository

/-- `INSERT INTO tournaments (id, name, created_at) VALUES (...)`;
`id` is the primary key (tournament names are not unique). -/
def Create (db : DB) (t : Tournament) : Except String DB :=
  if db.tournaments.any (fun q => q.id = t.id) then
    .error "duplicate key value violates unique constraint"
  else
    .ok { db with tournaments := db.tournaments ++ [t] }

/-- `SELECT id, name, created_at FROM tournaments WHERE id = $1`. -/
def GetByID (db : DB) (id : Nat) : Except String Tournament :=
  match db.tournaments.find? (fun t => t.id = id) with
  | none => .error "tournament not found"
  | some t => .ok t

/-- `SELECT id, name, created_at FROM tournaments ORDER BY created_at DESC`. -/
def GetAll (db : DB) : List Tournament :=
  sortByKey (fun a b => decide (b.createdAt ≤ a.createdAt)) db.tournaments

/-- `UPDATE tournaments SET name = $2 WHERE id = $1`; zero rows affected
becomes the error `"tournament not found"`. -/
def Update (db : DB) (t : Tournament) : Except String DB :=
  if db.tournaments.any (fun q => q.id = t.id) then
    .ok { db with tournaments := db.tournaments.map (fun q =>
      if q.id = t.id then { q with name := t.name } else q) }
  else
    .error "tournament not found"

/-- `DELETE FROM tournaments WHERE id = $1`; zero rows affected becomes the
error `"tournament not found"`; `tournament_teams.tournament_id` cascades. -/
def Delete (db : DB) (id : Nat) : Except String DB :=
  if db.tournaments.any (fun t => t.id = id) then
    .ok { db with tournaments := db.tournaments.filter (fun t => ¬ t.id = id),
                  tournamentTeams := db.tournamentTeams.filter (fun r => ¬ r.1 = id) }
  else
    .error "tournament not found"

/-- `INSERT INTO tournament_teams (tournament_id, team_id) VALUES ($1, $2)`. -/
def AddTeam (db : DB) (tournamentID teamID : Nat) : Except String DB :=
  if db.tournamentTeams.any (fun r => r.1 = tournamentID ∧ r.2 = teamID) then
    .error "duplicate key value violates unique constraint"
  else
    .ok { db with tournamentTeams := db.tournamentTeams ++ [(tournamentID, teamID)] }

/-- `DELETE FROM tournament_teams WHERE tournament_id = $1 AND team_id = $2`;
the affected-row count is discarded, so the call always succeeds. -/
def RemoveTeam (db : DB) (tournamentID teamID : Nat) : Except String DB :=
  .ok { db with tournamentTeams :=
    db.tournamentTeams.filter (fun r => ¬ (r.1 = tournamentID ∧ r.2 = teamID)) }

/-- `SELECT t.* FROM teams t INNER JOIN tournament_teams tt ON t.id =
tt.team_id WHERE tt.tournament_id = $1 ORDER BY t.name`. -/
def GetTournamentTeams (db : DB) (tournamentID : Nat) : List Team :=
  sortByKey (fun a b => decide (a.name ≤ b.name))
    (db.teams.filter (fun t =>
      db.tournamentTeams.any (fun r => r.1 = tournamentID ∧ r.2 = t.id)))

end PostgresTournamentRepository

/-! ### Match repository (`internal/repository/match_repository.go`) -/

namespace PostgresMatchRepository

/-- `INSERT INTO matches (...) VALUES (...)`; the schema has `id` as the
primary key, foreign keys on both team references, and the check
constraint `team1_id != team2_id`. -/
def Create (db : DB) (m : Match) : Except String DB :=
  if db.matchRows.any (fun q => q.id = m.id) then
    .error "duplicate key value violates unique constraint"
  else if ¬ db.teams.any (fun t => t.id = m.team1Id) then
    .error "violates foreign key constraint"
  else if ¬ db.teams.any (fun t => t.id = m.team2Id) then
    .error "violates foreign key constraint"
  else if m.team1Id = m.team2Id then
    .error "violates check constraint"
  else
    .ok { db with matchRows := db.matchRows ++ [m] }

/-- `SELECT ... FROM matches WHERE id = $1`. -/
def GetByID (db : DB) (id : Nat) : Except String Match :=
  match db.matchRows.find? (fun m => m.id = id) with
  | none => .error "match not found"
  | some m => .ok m

/-- `SELECT ... FROM matches ORDER BY date DESC` — note: by `date`, not by
`created_at`. -/
def GetAll (db : DB) : List Match :=
  sortByKey (fun a b => decide (b.date ≤ a.date)) db.matchRows

/-- `UPDATE matches SET match_number = $2, date = $3, team1_id = $4,
team2_id = $5, goal_scored_team1 = $6, goal_scored_team2 = $7 WHERE
id = $1`; zero rows affected becomes the error `"match not found"`. -/
def Update (db : DB) (m : Match) : Except String DB :=
  if db.matchRows.any (fun q => q.id = m.id) then
    .ok { db with matchRows := db.matchRows.map (fun q =>
      if q.id = m.id then
        { q with matchNumber := m.matchNumber, date := m.date,
                 team1Id := m.team1Id, team2Id := m.team2Id,
                 goalScoredTeam1 := m.goalScoredTeam1,
                 goalScoredTeam2 := m.goalScoredTeam2 }
      else q) }
  else
    .error "match not found"

/-- `DELETE FROM matches WHERE id = $1`; zero rows affected becomes the
error `"match not found"`. -/
def Delete (db : DB) (id : Nat) : Except String DB :=
  if db.matchRows.any (fun m => m.id = id) then
    .ok { db with matchRows := db.matchRows.filter (fun m => ¬ m.id = id) }
  else
    .error "match not found"

end PostgresMatchRepository

/-! ### Use cases (`internal/usecase/*.go`) -/

namespace PlayerUseCase

/-- `PlayerUseCase.CreatePlayer`: straight pass-through. -/
def CreatePlayer (db : DB) (p : Player) : Except String DB :=
  PostgresPlayerRepository.Create db p

/-- `PlayerUseCase.GetPlayerByID`: straight pass-through. -/
def GetPlayerByID (db : DB) (id : Nat) : Except String Player :=
  PostgresPlayerRepository.GetByID db id

/-- `PlayerUseCase.GetAllPlayers`: straight pass-through. -/
def GetAllPlayers (db : DB) : List Player :=
  PostgresPlayerRepository.GetAll db

/-- `PlayerUseCase.UpdatePlayer`: straight pass-through. -/
def UpdatePlayer (db : DB) (p : Player) : Except String DB :=
  PostgresPlayerRepository.Update db p

/-- `PlayerUseCase.DeletePlayer`: straight pass-through. -/
def DeletePlayer (db : DB) (id : Nat) : Except String DB :=
  PostgresPlayerRepository.Delete db id

end PlayerUseCase

namespace TeamUseCase

/-- `TeamUseCase.CreateTeam`: straight pass-through. -/
def CreateTeam (db : DB) (t : Team) : Except String DB :=
  PostgresTeamRepository.Create db t

/-- `TeamUseCase.GetTeamByID`: straight pass-through. -/
def GetTeamByID (db : DB) (id : Nat) : Except String Team :=
  PostgresTeamRepository.GetByID db id

/-- `TeamUseCase.GetAllTeams`: straight pass-through. -/
def GetAllTeams (db : DB) : List Team :=
  PostgresTeamRepository.GetAll db

/-- `TeamUseCase.UpdateTeam`: straight pass-through. -/
def UpdateTeam (db : DB) (t : Team) : Except String DB :=
  PostgresTeamRepository.Update db t

/-- `TeamUseCase.DeleteTeam`: straight pass-through. -/
def DeleteTeam (db : DB) (id : Nat) : Except String DB :=
  PostgresTeamRepository.Delete db id

/-- `TeamUseCase.AddPlayerToTeam`: checks that the team exists
(`"team not found: %w"`), then that the player exists
(`"player not found: %w"`), then delegates to the repository. -/
def AddPlayerToTeam (db : DB) (teamID playerID : Nat) : Except String DB :=
  match PostgresTeamRepository.GetByID db teamID with
  | .error e => .error ("team not found: " ++ e)
  | .ok _ =>
    match PostgresPlayerRepository.GetByID db playerID with
    | .error e => .error ("player not found: " ++ e)
    | .ok _ => PostgresTeamRepository.AddPlayer db teamID playerID

/-- `TeamUseCase.RemovePlayerFromTeam`: no existence checks, straight
pass-through to the repository. -/
def RemovePlayerFromTeam (db : DB) (teamID playerID : Nat) : Except String DB :=
  PostgresTeamRepository.RemovePlayer db teamID playerID

/-- `TeamUseCase.GetTeamPlayers`: straight pass-through. -/
def GetTeamPlayers (db : DB) (teamID : Nat) : List Player :=
  PostgresTeamRepository.GetTeamPlayers db teamID

end TeamUseCase

namespace TournamentUseCase

/-- `TournamentUseCase.CreateTournament`: straight pass-through. -/
def CreateTournament (db : DB) (t : Tournament) : Except String DB :=
  PostgresTournamentRepository.Create db t

/-- `TournamentUseCase.GetTournamentByID`: straight pass-through. -/
def GetTournamentByID (db : DB) (id : Nat) : Except String Tournament :=
  PostgresTournamentRepository.GetByID db id

/-- `TournamentUseCase.GetAllTournaments`: straight pass-through. -/
def GetAllTournaments (db : DB) : List Tournament :=
  PostgresTournamentRepository.GetAll db

/-- `TournamentUseCase.UpdateTournament`: straight pass-through. -/
def UpdateTournament (db : DB) (t : Tournament) : Except String DB :=
  PostgresTournamentRepository.Update db t

/-- `TournamentUseCase.DeleteTournament`: straight pass-through. -/
def DeleteTournament (db : DB) (id : Nat) : Except String DB :=
  PostgresTournamentRepository.Delete db id

/-- `TournamentUseCase.AddTeamToTournament`: checks that the tournament
exists (`"tournament not found: %w"`), then that the team exists
(`"team not found: %w"`), then delegates to the repository. -/
def AddTeamToTournament (db : DB) (tournamentID teamID : Nat) : Except String DB :=
  match PostgresTournamentRepository.GetByID db tournamentID with
  | .error e => .error ("tournament not found: " ++ e)
  | .ok _ =>
    match PostgresTeamRepository.GetByID db teamID with
    | .error e => .error ("team not found: " ++ e)
    | .ok _ => PostgresTournamentRepository.AddTeam db tournamentID teamID

/-- `TournamentUseCase.RemoveTeamFromTournament`: no existence checks,
straight pass-through to the repository. -/
def RemoveTeamFromTournament (db : DB) (tournamentID teamID : Nat) : Except String DB :=
  PostgresTournamentRepository.RemoveTeam db tournamentID teamID

/-- `TournamentUseCase.GetTournamentTeams`: straight pass-through. -/
def GetTournamentTeams (db : DB) (tournamentID : Nat) : List Team :=
  PostgresTournamentRepository.GetTournamentTeams db tournamentID

end TournamentUseCase

namespace MatchUseCase

/-- `MatchUseCase.CreateMatch` (`internal/usecase/match_usecase.go`): first
checks that team1 exists (wrapping the failure as `"team1 not found: %w"`),
then that team2 exists (`"team2 not found: %w"`), then — only after both
lookups succeed — rejects `team1Id = team2Id` with
`"a team cannot play against itself"`, and finally delegates the insert. -/
def CreateMatch (db : DB) (m : Match) : Except String DB :=
  match PostgresTeamRepository.GetByID db m.team1Id with
  | .error e => .error ("team1 not found: " ++ e)
  | .ok _ =>
    match PostgresTeamRepository.GetByID db m.team2Id with
    | .error e => .error ("team2 not found: " ++ e)
    | .ok _ =>
      if m.team1Id = m.team2Id then
        .error "a team cannot play against itself"
      else
        PostgresMatchRepository.Create db m

/-- `MatchUseCase.GetMatchByID`: straight pass-through. -/
def GetMatchByID (db : DB) (id : Nat) : Except String Match :=
  PostgresMatchRepository.GetByID db id

/-- `MatchUseCase.GetAllMatches`: straight pass-through. -/
def GetAllMatches (db : DB) : List Match :=
  PostgresMatchRepository.GetAll db

/-- `MatchUseCase.UpdateMatch`: same check sequence as `CreateMatch`,
then delegates to the repository update. -/
def UpdateMatch (db : DB) (m : Match) : Except String DB :=
  match PostgresTeamRepository.GetByID db m.team1Id with
  | .error e => .error ("team1 not found: " ++ e)
  | .ok _ =>
    match PostgresTeamRepository.GetByID db m.team2Id with
    | .error e => .error ("team2 not found: " ++ e)
    | .ok _ =>
      if m.team1Id = m.team2Id then
        .error "a team cannot play against itself"
      else
        PostgresMatchRepository.Update db m

/-- `MatchUseCase.DeleteMatch`: straight pass-through. -/
def DeleteMatch (db : DB) (id : Nat) : Except String DB :=
  PostgresMatchRepository.Delete db id

end MatchUseCase

/-! ### HTTP handler layer (`internal/handler/*.go`)

`respondWithJSON`/`respondWithError` write a status code and either a
payload or an `{"error": msg}` envelope; we model a response as a status
plus either payload or error message.  The handlers receive the path with
the `/api/<resource>` prefix already stripped and the surrounding `/`
trimmed (`strings.TrimPrefix` + `strings.Trim` at the top of each
`ServeHTTP`), which is exactly the `path` argument below. -/

/-- A handler response: `respondWithError` (status + `{"error": msg}`) or
`respondWithJSON` (status + payload). -/
inductive HResp (α : Type) where
  | err (status : Nat) (msg : String)
  | ok (status : Nat) (payload : α)
deriving Repr, DecidableEq

/-- The HTTP status code of a response. -/
def HResp.status : HResp α → Nat
  | .err s _ => s
  | .ok s _ => s

/-- Model of the external `strings.Split(path, "/")` (Go stdlib): splits
at every separator; the empty string yields `[""]`, exactly as in Go. -/
def splitOnSlash : List Char → List (List Char)
  | [] => [[]]
  | x :: xs =>
    match splitOnSlash xs, decide (x = '/') with
    | rest, true => [] :: rest
    | [], false => [[x]]
    | r :: rs, false => (x :: r) :: rs

/-- The segment list of a trimmed path, as `strings.Split(path, "/")`. -/
def splitSegments (s : String) : List String :=
  (splitOnSlash s.data).map (fun cs => String.mk cs)

/-- The dispatch outcome of `TeamHandler.ServeHTTP`: either an immediate
400 from a failed UUID parse in the sub-resource branches, or the
operation the request is routed to. -/
inductive TeamRoute where
  | invalidTeamUUID
  | invalidPlayerUUID
  | addPlayer (teamId playerId : Nat)
  | removePlayer (teamId playerId : Nat)
  | getTeamPlayers (teamId : Nat)
  | getAll
  | getByID (idStr : String)
  | create
  | update (idStr : String)
  | delete (idStr : String)
  | methodNotAllowed
deriving Repr, DecidableEq

namespace TeamHandler

/-- `TeamHandler.ServeHTTP` routing (`internal/handler/team_handler.go`):
`segments := strings.Split(path, "/")`; a `len ≥ 3` branch for
`/{id}/players/{playerId}` (POST/DELETE, otherwise 405), a `len == 2`
branch for `/{id}/players` that handles only GET and otherwise falls
through, and the standard CRUD dispatch on the whole trimmed path. -/
def ServeHTTP (method path : String) : TeamRoute :=
  let segments := splitSegments path
  if 3 ≤ segments.length ∧ segments.getD 1 "" = "players" then
    match uuidParse (segments.getD 0 "") with
    | none => .invalidTeamUUID
    | some teamId =>
      match uuidParse (segments.getD 2 "") with
      | none => .invalidPlayerUUID
      | some playerId =>
        if method = "POST" then .addPlayer teamId playerId
        else if method = "DELETE" then .removePlayer teamId playerId
        else .methodNotAllowed
  else if segments.length = 2 ∧ segments.getD 1 "" = "players" then
    match uuidParse (segments.getD 0 "") with
    | none => .invalidTeamUUID
    | some teamId =>
      if method = "GET" then .getTeamPlayers teamId
      else
        -- no `else` in the Go code: control falls through to the CRUD switch
        if method = "POST" then .create
        else if method = "PUT" then .update path
        else if method = "DELETE" then .delete path
        else .methodNotAllowed
  else
    if method = "GET" then (if path = "" then .getAll else .getByID path)
    else if method = "POST" then .create
    else if method = "PUT" then .update path
    else if method = "DELETE" then .delete path
    else .methodNotAllowed

/-- `TeamHandler.GetByID`: 400 on a bad UUID, 404 when the use case
fails, otherwise 200 with the team. -/
def GetByID (db : DB) (idStr : String) : HResp Team :=
  match uuidParse idStr with
  | none => .err 400 "Invalid UUID"
  | some id =>
    match TeamUseCase.GetTeamByID db id with
    | .error e => .err 404 e
    | .ok t => .ok 200 t

/-- `TeamHandler.AddPlayer`: 400 on any use-case failure, otherwise 200
with a message; returns the possibly-updated store. -/
def AddPlayer (db : DB) (teamID playerID : Nat) : HResp String × DB :=
  match TeamUseCase.AddPlayerToTeam db teamID playerID with
  | .error e => (.err 400 e, db)
  | .ok db' => (.ok 200 "Player added to team", db')

/-- `TeamHandler.GetTeamPlayers`: always 200 with the related players
(the use case is infallible in the model; storage failures are 500). -/
def GetTeamPlayers (db : DB) (teamID : Nat) : HResp (List Player) :=
  .ok 200 (TeamUseCase.GetTeamPlayers db teamID)

/-- Body shape decoded by `TeamHandler.Create`/`Update`: `{name}`.
`none` models a body that fails JSON decoding. -/
structure Input where
  name : String
deriving Repr, DecidableEq

/-- `TeamHandler.Update`: parses the path id, decodes the body, builds
`&domain.Team{ID: id, Name: input.Name}` (the `CreatedAt` field is left
at the Go zero value, modelled as `0`), calls the use case (500 on
failure), and on success serializes that constructed team with 200. -/
def Update (db : DB) (idStr : String) (body : Option Input) : HResp Team × DB :=
  match uuidParse idStr with
  | none => (.err 400 "Invalid UUID", db)
  | some id =>
    match body with
    | none => (.err 400 "Invalid request payload", db)
    | some input =>
      let team : Team := { id := id, name := input.name, createdAt := 0 }
      match TeamUseCase.UpdateTeam db team with
      | .error e => (.err 500 e, db)
      | .ok db' => (.ok 200 team, db')

end TeamHandler

/-- The dispatch outcome of `TournamentHandler.ServeHTTP`. -/
inductive TournamentRoute where
  | invalidTournamentUUID
  | invalidTeamUUID
  | addTeam (tournamentId teamId : Nat)
  | removeTeam (tournamentId teamId : Nat)
  | getTournamentTeams (tournamentId : Nat)
  | getAll
  | getByID (idStr : String)
  | create
  | update (idStr : String)
  | delete (idStr : String)
  | methodNotAllowed
deriving Repr, DecidableEq

namespace TournamentHandler

/-- `TournamentHandler.ServeHTTP` routing
(`internal/handler/tournament_handler.go`): same shape as the team
handler with sub-resource name `"teams"`, including the GET-only
fall-through in the two-segment branch. -/
def ServeHTTP (method path : String) : TournamentRoute :=
  let segments := splitSegments path
  if 3 ≤ segments.length ∧ segments.getD 1 "" = "teams" then
    match uuidParse (segments.getD 0 "") with
    | none => .invalidTournamentUUID
    | some tournamentId =>
      match uuidParse (segments.getD 2 "") with
      | none => .invalidTeamUUID
      | some teamId =>
        if method = "POST" then .addTeam tournamentId teamId
        else if method = "DELETE" then .removeTeam tournamentId teamId
        else .methodNotAllowed
  else if segments.length = 2 ∧ segments.getD 1 "" = "teams" then
    match uuidParse (segments.getD 0 "") with
    | none => .invalidTournamentUUID
    | some tournamentId =>
      if method = "GET" then .getTournamentTeams tournamentId
      else
        -- fall through to the CRUD switch, as in the Go code
        if method = "POST" then .create
        else if method = "PUT" then .update path
        else if method = "DELETE" then .delete path
        else .methodNotAllowed
  else
    if method = "GET" then (if path = "" then .getAll else .getByID path)
    else if method = "POST" then .create
    else if method = "PUT" then .update path
    else if method = "DELETE" then .delete path
    else .methodNotAllowed

/-- `TournamentHandler.GetByID`: 400 on bad UUID, 404 on use-case
failure, otherwise 200. -/
def GetByID (db : DB) (idStr : String) : HResp Tournament :=
  match uuidParse idStr with
  | none => .err 400 "Invalid UUID"
  | some id =>
    match TournamentUseCase.GetTournamentByID db id with
    | .error e => .err 404 e
    | .ok t => .ok 200 t

/-- `TournamentHandler.AddTeam`: 400 on any use-case failure, otherwise
200 with a message. -/
def AddTeam (db : DB) (tournamentID teamID : Nat) : HResp String × DB :=
  match TournamentUseCase.AddTeamToTournament db tournamentID teamID with
  | .error e => (.err 400 e, db)
  | .ok db' => (.ok 200 "Team added to tournament", db')

/-- Body shape decoded by `TournamentHandler.Create`/`Update`: `{name}`.
`none` models a body that fails JSON decoding. -/
structure Input where
  name : String
deriving Repr, DecidableEq

/-- `TournamentHandler.Update`: parses the path id, decodes the body,
builds `&domain.Tournament{ID: id, Name: input.Name}` (`CreatedAt` left
at the Go zero value `0`), calls the use case (500 on failure), and on
success serializes that constructed tournament with 200. -/
def Update (db : DB) (idStr : String) (body : Option Input) : HResp Tournament × DB :=
  match uuidParse idStr with
  | none => (.err 400 "Invalid UUID", db)
  | some id =>
    match body with
    | none => (.err 400 "Invalid request payload", db)
    | some input =>
      let tournament : Tournament := { id := id, name := input.name, createdAt := 0 }
      match TournamentUseCase.UpdateTournament db tournament with
      | .error e => (.err 500 e, db)
      | .ok db' => (.ok 200 tournament, db')

end TournamentHandler

namespace PlayerHandler

/-- `PlayerHandler.GetByID` (`internal/handler/player_handler.go`): 400 on
a bad UUID, 404 when the use case fails, otherwise 200 with the player. -/
def GetByID (db : DB) (idStr : String) : HResp Player :=
  match uuidParse idStr with
  | none => .err 400 "Invalid UUID"
  | some id =>
    match PlayerUseCase.GetPlayerByID db id with
    | .error e => .err 404 e
    | .ok p => .ok 200 p

/-- Body shape decoded by `PlayerHandler.Create`/`Update`:
`{name, date_birth}`; `none` models a body that fails JSON decoding. -/
structure Input where
  name : String
  dateBirth : String
deriving Repr, DecidableEq

/-- `PlayerHandler.Update` (`internal/handler/player_handler.go`): parses
the path id, decodes the body, parses the date, builds
`&domain.Player{ID: id, Name: ..., DateBirth: ...}` (`CreatedAt` left at
the Go zero value `0`), calls the use case (500 on failure), and on
success serializes that constructed player with 200. -/
def Update (db : DB) (idStr : String) (body : Option Input) : HResp Player × DB :=
  match uuidParse idStr with
  | none => (.err 400 "Invalid UUID", db)
  | some id =>
    match body with
    | none => (.err 400 "Invalid request payload", db)
    | some input =>
      match parseDateTime input.dateBirth with
      | none => (.err 400 "Invalid date format", db)
      | some dateBirth =>
        let player : Player :=
          { id := id, name := input.name, dateBirth := dateBirth, createdAt := 0 }
        match PlayerUseCase.UpdatePlayer db player with
        | .error e => (.err 500 e, db)
        | .ok db' => (.ok 200 player, db')

end PlayerHandler

namespace MatchHandler

/-- Body shape decoded by `MatchHandler.Create`/`Update`. -/
structure Input where
  matchNumber : Int
  date : String
  team1Id : String
  team2Id : String
  goalScoredTeam1 : Int
  goalScoredTeam2 : Int
deriving Repr, DecidableEq

/-- `MatchHandler.Update` (`internal/handler/match_handler.go`): parses
the path id, decodes the body, parses date and both team UUIDs, builds
`&domain.Match{...}` (`CreatedAt` left at the Go zero value `0`), calls
`UpdateMatch` (400 on failure), and on success serializes that
constructed match with 200. -/
def Update (db : DB) (idStr : String) (body : Option Input) : HResp Match × DB :=
  match uuidParse idStr with
  | none => (.err 400 "Invalid UUID", db)
  | some id =>
    match body with
    | none => (.err 400 "Invalid request payload", db)
    | some input =>
      match parseDateTime input.date with
      | none => (.err 400 "Invalid date format", db)
      | some date =>
        match uuidParse input.team1Id with
        | none => (.err 400 "Invalid team1_id UUID", db)
        | some team1Id =>
          match uuidParse input.team2Id with
          | none => (.err 400 "Invalid team2_id UUID", db)
          | some team2Id =>
            let m : Match :=
              { id := id, matchNumber := input.matchNumber, date := date,
                team1Id := team1Id, team2Id := team2Id,
                goalScoredTeam1 := input.goalScoredTeam1,
                goalScoredTeam2 := input.goalScoredTeam2, createdAt := 0 }
            match MatchUseCase.UpdateMatch db m with
            | .error e => (.err 400 e, db)
            | .ok db' => (.ok 200 m, db')

/-- `MatchHandler.GetByID` (`internal/handler/match_handler.go`): 400 on a
bad UUID, 404 when the use case fails, otherwise 200 with the match. -/
def GetByID (db : DB) (idStr : String) : HResp Match :=
  match uuidParse idStr with
  | none => .err 400 "Invalid UUID"
  | some id =>
    match MatchUseCase.GetMatchByID db id with
    | .error e => .err 404 e
    | .ok m => .ok 200 m

end MatchHandler

/-! ### Generic facts about `sortByKey` -/

theorem mem_insertByKey {le : α → α → Bool} {a x : α} {l : List α} :
    x ∈ insertByKey le a l ↔ x = a ∨ x ∈ l := by
  induction l with
  | nil => simp [insertByKey]
  | cons b bs ih =>
    simp only [insertByKey]
    split
    · simp [List.mem_cons]
    · simp only [List.mem_cons, ih]
      tauto

theorem perm_insertByKey (le : α → α → Bool) (a : α) (l : List α) :
    (insertByKey le a l).Perm (a :: l) := by
  induction l with
  | nil => simp [insertByKey]
  | cons b bs ih =>
    simp only [insertByKey]
    split
    · exact List.Perm.refl _
    · exact List.Perm.trans (List.Perm.cons b ih) (List.Perm.swap a b bs)

theorem perm_sortByKey (le : α → α → Bool) (l : List α) :
    (sortByKey le l).Perm l := by
  induction l with
  | nil => simp [sortByKey]
  | cons a as ih =>
    exact List.Perm.trans (perm_insertByKey le a (sortByKey le as)) (List.Perm.cons a ih)

theorem pairwise_insertByKey {le : α → α → Bool}
    (htot : ∀ a b, le a b = true ∨ le b a = true)
    (htrans : ∀ a b c, le a b = true → le b c = true → le a c = true)
    {a : α} {l : List α} (h : l.Pairwise (fun x y => le x y = true)) :
    (insertByKey le a l).Pairwise (fun x y => le x y = true) := by
  induction l with
  | nil => simp [insertByKey]
  | cons b bs ih =>
    rw [List.pairwise_cons] at h
    obtain ⟨hb, hbs⟩ := h
    simp only [insertByKey]
    split
    · rename_i hab
      rw [List.pairwise_cons]
      refine ⟨?_, List.pairwise_cons.mpr ⟨hb, hbs⟩⟩
      intro x hx
      rcases List.mem_cons.mp hx with hxb | hxbs
      · exact hxb ▸ hab
      · exact htrans a b x hab (hb x hxbs)
    · rename_i hab
      have hba : le b a = true := by
        rcases htot a b with h1 | h1
        · exact absurd h1 hab
        · exact h1
      rw [List.pairwise_cons]
      refine ⟨?_, ih hbs⟩
      intro x hx
      rcases mem_insertByKey.mp hx with hxa | hxbs
      · exact hxa ▸ hba
      · exact hb x hxbs

theorem pairwise_sortByKey {le : α → α → Bool}
    (htot : ∀ a b, le a b = true ∨ le b a = true)
    (htrans : ∀ a b c, le a b = true → le b c = true → le a c = true)
    (l : List α) :
    (sortByKey le l).Pairwise (fun x y => le x y = true) := by
  induction l with
  | nil => simp [sortByKey]
  | cons a as ih => exact pairwise_insertByKey htot htrans ih

/-! ### Facts about team lookup -/

theorem teamGetByID_eq_error {db : DB} {id : Nat}
    (h : ∀ t ∈ db.teams, t.id ≠ id) :
    PostgresTeamRepository.GetByID db id = .error "team not found" := by
  unfold PostgresTeamRepository.GetByID
  have hf : db.teams.find? (fun t => t.id = id) = none := by
    rw [List.find?_eq_none]
    intro t ht
    simpa using h t ht
  rw [hf]

theorem teamGetByID_exists_ok {db : DB} {id : Nat}
    (h : ∃ t ∈ db.teams, t.id = id) :
    ∃ t, PostgresTeamRepository.GetByID db id = .ok t := by
  unfold PostgresTeamRepository.GetByID
  cases hf : db.teams.find? (fun t => t.id = id) with
  | none =>
    exfalso
    obtain ⟨t, ht, hid⟩ := h
    have := List.find?_eq_none.mp hf t ht
    simp [hid] at this
  | some t => exact ⟨t, rfl⟩

/-! ### Claims -/

/-- C1, counterexample: with an empty store, `CreateMatch` on a match with
`team1Id = team2Id = 0` fails with the wrapped `"team1 not found"` error —
not the self-referential `"a team cannot play against itself"` error the
claim demands — because both existence checks run before the
self-match check. -/
theorem c1_counterexample :
    MatchUseCase.CreateMatch ⟨[], [], [], [], [], []⟩ (NewMatch 1 0 0 0 0 0 5 0)
      = .error "team1 not found: team not found" ∧
    ("team1 not found: team not found" : String) ≠
      "a team cannot play against itself" := by
  constructor
  · rfl
  · decide

/-- C1 (amended): for every `CreateMatch`/`UpdateMatch` whose match has
`team1Id = team2Id`, the operation fails and no match row is written; the
error is the self-referential `"a team cannot play against itself"` when
the shared team exists, and the wrapped `"team1 not found"` error when it
does not. -/
theorem c1_self_match_always_fails (db : DB) (m : Match)
    (h : m.team1Id = m.team2Id) :
    (∀ db', MatchUseCase.CreateMatch db m ≠ .ok db') ∧
    (∀ db', MatchUseCase.UpdateMatch db m ≠ .ok db') ∧
    ((∃ t ∈ db.teams, t.id = m.team1Id) →
      MatchUseCase.CreateMatch db m = .error "a team cannot play against itself" ∧
      MatchUseCase.UpdateMatch db m = .error "a team cannot play against itself") ∧
    ((∀ t ∈ db.teams, t.id ≠ m.team1Id) →
      MatchUseCase.CreateMatch db m = .error "team1 not found: team not found" ∧
      MatchUseCase.UpdateMatch db m = .error "team1 not found: team not found") := by
  by_cases hex : ∃ t ∈ db.teams, t.id = m.team1Id
  · obtain ⟨t, hGet⟩ := teamGetByID_exists_ok hex
    have hc : MatchUseCase.CreateMatch db m
        = .error "a team cannot play against itself" := by
      unfold MatchUseCase.CreateMatch
      rw [hGet, ← h, hGet, if_pos rfl]
    have hu : MatchUseCase.UpdateMatch db m
        = .error "a team cannot play against itself" := by
      unfold MatchUseCase.UpdateMatch
      rw [hGet, ← h, hGet, if_pos rfl]
    refine ⟨?_, ?_, fun _ => ⟨hc, hu⟩, ?_⟩
    · intro db' hok
      rw [hc] at hok
      simp at hok
    · intro db' hok
      rw [hu] at hok
      simp at hok
    · intro hall
      obtain ⟨t, ht, hid⟩ := hex
      exact absurd hid (hall t ht)
  · push_neg at hex
    have hGet := teamGetByID_eq_error hex
    have hc : MatchUseCase.CreateMatch db m
        = .error "team1 not found: team not found" := by
      unfold MatchUseCase.CreateMatch
      rw [hGet]
      rfl
    have hu : MatchUseCase.UpdateMatch db m
        = .error "team1 not found: team not found" := by
      unfold MatchUseCase.UpdateMatch
      rw [hGet]
      rfl
    refine ⟨?_, ?_, ?_, fun _ => ⟨hc, hu⟩⟩
    · intro db' hok
      rw [hc] at hok
      simp at hok
    · intro db' hok
      rw [hu] at hok
      simp at hok
    · intro hex2
      obtain ⟨t, ht, hid⟩ := hex2
      exact absurd hid (hex t ht)

/-- C1 witness: a store holding team 1 and a match with both sides team 1
is rejected with the self-referential error. -/
theorem c1_witness :
    (NewMatch 1 0 1 1 0 0 9 0).team1Id = (NewMatch 1 0 1 1 0 0 9 0).team2Id ∧
    MatchUseCase.CreateMatch ⟨[], [⟨1, "A", 0⟩], [], [], [], []⟩
        (NewMatch 1 0 1 1 0 0 9 0)
      = .error "a team cannot play against itself" :=
  ⟨rfl,
    ((c1_self_match_always_fails ⟨[], [⟨1, "A", 0⟩], [], [], [], []⟩
        (NewMatch 1 0 1 1 0 0 9 0) rfl).2.2.1 ⟨⟨1, "A", 0⟩, by simp, rfl⟩).1⟩

/-- C2: `CreateMatch` with a dangling `team1Id` fails with the wrapped
`"team1 not found"` error; with `team1Id` resolving but `team2Id` dangling
it fails with the wrapped `"team2 not found"` error; the two error strings
differ (the failing side is distinguishable), and in both cases no match
row is written. -/
theorem c2_dangling_team_rejected (db : DB) (m : Match) :
    ((∀ t ∈ db.teams, t.id ≠ m.team1Id) →
      MatchUseCase.CreateMatch db m = .error "team1 not found: team not found" ∧
      ∀ db', MatchUseCase.CreateMatch db m ≠ .ok db') ∧
    ((∃ t ∈ db.teams, t.id = m.team1Id) → (∀ t ∈ db.teams, t.id ≠ m.team2Id) →
      MatchUseCase.CreateMatch db m = .error "team2 not found: team not found" ∧
      ∀ db', MatchUseCase.CreateMatch db m ≠ .ok db') ∧
    ("team1 not found: team not found" : String) ≠
      "team2 not found: team not found" := by
  refine ⟨?_, ?_, by decide⟩
  · intro h1
    have hc : MatchUseCase.CreateMatch db m
        = .error "team1 not found: team not found" := by
      unfold MatchUseCase.CreateMatch
      rw [teamGetByID_eq_error h1]
      rfl
    refine ⟨hc, fun db' hok => ?_⟩
    rw [hc] at hok
    simp at hok
  · intro hex h2
    obtain ⟨t, hGet⟩ := teamGetByID_exists_ok hex
    have hc : MatchUseCase.CreateMatch db m
        = .error "team2 not found: team not found" := by
      unfold MatchUseCase.CreateMatch
      rw [hGet, teamGetByID_eq_error h2]
      rfl
    refine ⟨hc, fun db' hok => ?_⟩
    rw [hc] at hok
    simp at hok

/-- C2 witness: with only team 1 stored, a match 2-vs-1 fails with the
`team1` label and a match 1-vs-2 fails with the `team2` label. -/
theorem c2_witness :
    (∀ t ∈ (⟨[], [⟨1, "A", 0⟩], [], [], [], []⟩ : DB).teams, t.id ≠ 2) ∧
    MatchUseCase.CreateMatch ⟨[], [⟨1, "A", 0⟩], [], [], [], []⟩
        (NewMatch 1 0 2 1 0 0 9 0)
      = .error "team1 not found: team not found" ∧
    MatchUseCase.CreateMatch ⟨[], [⟨1, "A", 0⟩], [], [], [], []⟩
        (NewMatch 1 0 1 2 0 0 9 0)
      = .error "team2 not found: team not found" :=
  ⟨by decide,
    ((c2_dangling_team_rejected ⟨[], [⟨1, "A", 0⟩], [], [], [], []⟩
        (NewMatch 1 0 2 1 0 0 9 0)).1 (by decide)).1,
    ((c2_dangling_team_rejected ⟨[], [⟨1, "A", 0⟩], [], [], [], []⟩
        (NewMatch 1 0 1 2 0 0 9 0)).2.1 ⟨⟨1, "A", 0⟩, by simp, rfl⟩ (by decide)).1⟩

/-! ### Sortedness helpers for the repository list queries -/

theorem sortByKey_natDesc_pairwise (f : α → Nat) (l : List α) :
    List.Pairwise (fun a b => f b ≤ f a)
      (sortByKey (fun a b => decide (f b ≤ f a)) l) := by
  have h := @pairwise_sortByKey _ (fun a b => decide (f b ≤ f a)) ?_ ?_ l
  · exact h.imp (fun hx => of_decide_eq_true hx)
  · intro a b
    rcases Nat.le_total (f b) (f a) with h1 | h1
    · exact Or.inl (decide_eq_true h1)
    · exact Or.inr (decide_eq_true h1)
  · intro a b c h1 h2
    exact decide_eq_true (le_trans (of_decide_eq_true h2) (of_decide_eq_true h1))

theorem sortByKey_strAsc_pairwise (f : α → String) (l : List α) :
    List.Pairwise (fun a b => f a ≤ f b)
      (sortByKey (fun a b => decide (f a ≤ f b)) l) := by
  have h := @pairwise_sortByKey _ (fun a b => decide (f a ≤ f b)) ?_ ?_ l
  · exact h.imp (fun hx => of_decide_eq_true hx)
  · intro a b
    rcases le_total (f a) (f b) with h1 | h1
    · exact Or.inl (decide_eq_true h1)
    · exact Or.inr (decide_eq_true h1)
  · intro a b c h1 h2
    exact decide_eq_true (le_trans (of_decide_eq_true h1) (of_decide_eq_true h2))

/-- C4, counterexample: a store with two matches, one created later
(created_at 10) but dated earlier (date 1): `GetAll` on matches returns
them date-descending, which is not creation-time-descending order. -/
theorem c4_counterexample :
    PostgresMatchRepository.GetAll
        ⟨[], [], [], [⟨1, 1, 1, 1, 2, 0, 0, 10⟩, ⟨2, 2, 2, 1, 2, 0, 0, 5⟩], [], []⟩
      = [⟨2, 2, 2, 1, 2, 0, 0, 5⟩, ⟨1, 1, 1, 1, 2, 0, 0, 10⟩] ∧
    ¬ List.Pairwise (fun a b : Match => b.createdAt ≤ a.createdAt)
        (PostgresMatchRepository.GetAll
          ⟨[], [], [], [⟨1, 1, 1, 1, 2, 0, 0, 10⟩, ⟨2, 2, 2, 1, 2, 0, 0, 5⟩], [], []⟩) := by
  constructor
  · rfl
  · decide

/-- C4 (amended): `GetAll` for players, teams, and tournaments returns the
stored rows ordered by creation time, newest first; `GetAll` for matches
returns the stored rows ordered by match **date**, newest first (not by
creation time); `GetTeamPlayers` and `GetTournamentTeams` return the
related entities ordered alphabetically by name. -/
theorem c4_list_orderings (db : DB) (teamID tournamentID : Nat) :
    (PostgresPlayerRepository.GetAll db).Perm db.players ∧
    List.Pairwise (fun a b : Player => b.createdAt ≤ a.createdAt)
      (PostgresPlayerRepository.GetAll db) ∧
    (PostgresTeamRepository.GetAll db).Perm db.teams ∧
    List.Pairwise (fun a b : Team => b.createdAt ≤ a.createdAt)
      (PostgresTeamRepository.GetAll db) ∧
    (PostgresTournamentRepository.GetAll db).Perm db.tournaments ∧
    List.Pairwise (fun a b : Tournament => b.createdAt ≤ a.createdAt)
      (PostgresTournamentRepository.GetAll db) ∧
    (PostgresMatchRepository.GetAll db).Perm db.matchRows ∧
    List.Pairwise (fun a b : Match => b.date ≤ a.date)
      (PostgresMatchRepository.GetAll db) ∧
    List.Pairwise (fun a b : Player => a.name ≤ b.name)
      (PostgresTeamRepository.GetTeamPlayers db teamID) ∧
    List.Pairwise (fun a b : Team => a.name ≤ b.name)
      (PostgresTournamentRepository.GetTournamentTeams db tournamentID) := by
  refine ⟨perm_sortByKey _ _, sortByKey_natDesc_pairwise Player.createdAt db.players,
    perm_sortByKey _ _, sortByKey_natDesc_pairwise Team.createdAt db.teams,
    perm_sortByKey _ _, sortByKey_natDesc_pairwise Tournament.createdAt db.tournaments,
    perm_sortByKey _ _, sortByKey_natDesc_pairwise Match.date db.matchRows,
    sortByKey_strAsc_pairwise Player.name _,
    sortByKey_strAsc_pairwise Team.name _⟩

/-- C3, counterexample: `POST /api/teams/7/players` (trimmed path
`"7/players"`: two segments, second equal to the sub-resource name) is not
answered with 405 — the two-segment branch handles only GET and control
falls through to the CRUD switch, which dispatches POST to `Create`. -/
theorem c3_counterexample :
    TeamHandler.ServeHTTP "POST" "7/players" = TeamRoute.create ∧
    TeamRoute.create ≠ TeamRoute.methodNotAllowed := by
  exact ⟨rfl, by decide⟩

/-- C3 (amended): on a trimmed path of exactly two segments whose second
segment is the sub-resource name and whose first segment parses as an id,
GET lists the related entities of the parent; every other method falls
through to the standard CRUD dispatch (POST creates a new parent-resource
entity, PUT/DELETE treat the whole two-segment path as an id string, and
only methods outside GET/POST/PUT/DELETE get 405). -/
theorem c3_subresource_routing (method path : String) (id : Nat) :
    ((splitSegments path).length = 2 →
      (splitSegments path).getD 1 "" = "players" →
      uuidParse ((splitSegments path).getD 0 "") = some id →
      TeamHandler.ServeHTTP method path =
        if method = "GET" then TeamRoute.getTeamPlayers id
        else if method = "POST" then TeamRoute.create
        else if method = "PUT" then TeamRoute.update path
        else if method = "DELETE" then TeamRoute.delete path
        else TeamRoute.methodNotAllowed) ∧
    ((splitSegments path).length = 2 →
      (splitSegments path).getD 1 "" = "teams" →
      uuidParse ((splitSegments path).getD 0 "") = some id →
      TournamentHandler.ServeHTTP method path =
        if method = "GET" then TournamentRoute.getTournamentTeams id
        else if method = "POST" then TournamentRoute.create
        else if method = "PUT" then TournamentRoute.update path
        else if method = "DELETE" then TournamentRoute.delete path
        else TournamentRoute.methodNotAllowed) := by
  constructor
  · intro hlen hsub hparse
    have h1 : ¬ (3 ≤ (splitSegments path).length ∧
        (splitSegments path).getD 1 "" = "players") := by
      intro hcon
      rw [hlen] at hcon
      exact absurd hcon.1 (by decide)
    unfold TeamHandler.ServeHTTP
    rw [if_neg h1, if_pos ⟨hlen, hsub⟩, hparse]
  · intro hlen hsub hparse
    have h1 : ¬ (3 ≤ (splitSegments path).length ∧
        (splitSegments path).getD 1 "" = "teams") := by
      intro hcon
      rw [hlen] at hcon
      exact absurd hcon.1 (by decide)
    unfold TournamentHandler.ServeHTTP
    rw [if_neg h1, if_pos ⟨hlen, hsub⟩, hparse]

/-- C3 witness: GET on `7/players` routes to the related-player listing of
team 7; GET on `7/teams` routes to the related-team listing of
tournament 7. -/
theorem c3_witness :
    (splitSegments "7/players").length = 2 ∧
    TeamHandler.ServeHTTP "GET" "7/players" = TeamRoute.getTeamPlayers 7 ∧
    TournamentHandler.ServeHTTP "GET" "7/teams" =
      TournamentRoute.getTournamentTeams 7 :=
  ⟨by decide,
    ((c3_subresource_routing "GET" "7/players" 7).1 (by decide) rfl rfl).trans
      (by decide),
    ((c3_subresource_routing "GET" "7/teams" 7).2 (by decide) rfl rfl).trans
      (by decide)⟩

theorem tournamentGetByID_eq_error {db : DB} {id : Nat}
    (h : ∀ t ∈ db.tournaments, t.id ≠ id) :
    PostgresTournamentRepository.GetByID db id = .error "tournament not found" := by
  unfold PostgresTournamentRepository.GetByID
  have hf : db.tournaments.find? (fun t => t.id = id) = none := by
    rw [List.find?_eq_none]
    intro t ht
    simpa using h t ht
  rw [hf]

theorem playerGetByID_eq_error {db : DB} {id : Nat}
    (h : ∀ p ∈ db.players, p.id ≠ id) :
    PostgresPlayerRepository.GetByID db id = .error "player not found" := by
  unfold PostgresPlayerRepository.GetByID
  have hf : db.players.find? (fun p => p.id = id) = none := by
    rw [List.find?_eq_none]
    intro p hp
    simpa using h p hp
  rw [hf]

theorem matchGetByID_eq_error {db : DB} {id : Nat}
    (h : ∀ m ∈ db.matchRows, m.id ≠ id) :
    PostgresMatchRepository.GetByID db id = .error "match not found" := by
  unfold PostgresMatchRepository.GetByID
  have hf : db.matchRows.find? (fun m => m.id = id) = none := by
    rw [List.find?_eq_none]
    intro m hm
    simpa using h m hm
  rw [hf]

/-- C5: for every single-entity GET handler (player, team, tournament,
match) whose id is well-formed but names no stored entity, the response is
404; for the relation-attach handlers, the same kind of not-found
condition (parent entity absent) is mapped to 400 instead. -/
theorem c5_notfound_status_mapping (db : DB) (idStr : String)
    (entityID playerID teamID2 : Nat) :
    (uuidParse idStr = some entityID →
      ((∀ p ∈ db.players, p.id ≠ entityID) →
        (PlayerHandler.GetByID db idStr).status = 404) ∧
      ((∀ t ∈ db.teams, t.id ≠ entityID) →
        (TeamHandler.GetByID db idStr).status = 404) ∧
      ((∀ t ∈ db.tournaments, t.id ≠ entityID) →
        (TournamentHandler.GetByID db idStr).status = 404) ∧
      ((∀ m ∈ db.matchRows, m.id ≠ entityID) →
        (MatchHandler.GetByID db idStr).status = 404)) ∧
    ((∀ t ∈ db.teams, t.id ≠ entityID) →
      ((TeamHandler.AddPlayer db entityID playerID).1).status = 400) ∧
    ((∀ t ∈ db.tournaments, t.id ≠ entityID) →
      ((TournamentHandler.AddTeam db entityID teamID2).1).status = 400) := by
  refine ⟨fun hparse => ⟨?_, ?_, ?_, ?_⟩, ?_, ?_⟩
  · intro habs
    simp [PlayerHandler.GetByID, PlayerUseCase.GetPlayerByID, hparse,
      playerGetByID_eq_error habs, HResp.status]
  · intro habs
    simp [TeamHandler.GetByID, TeamUseCase.GetTeamByID, hparse,
      teamGetByID_eq_error habs, HResp.status]
  · intro habs
    simp [TournamentHandler.GetByID, TournamentUseCase.GetTournamentByID,
      hparse, tournamentGetByID_eq_error habs, HResp.status]
  · intro habs
    simp [MatchHandler.GetByID, MatchUseCase.GetMatchByID, hparse,
      matchGetByID_eq_error habs, HResp.status]
  · intro habs
    simp [TeamHandler.AddPlayer, TeamUseCase.AddPlayerToTeam,
      teamGetByID_eq_error habs, HResp.status]
  · intro habs
    simp [TournamentHandler.AddTeam, TournamentUseCase.AddTeamToTournament,
      tournamentGetByID_eq_error habs, HResp.status]

/-- C5 witness: against the empty store, GET of id "5" answers 404 on all
four single-entity handlers, while attaching player 6 to team 5 (and
team 6 to tournament 5) answers 400. -/
theorem c5_witness :
    uuidParse "5" = some 5 ∧
    (PlayerHandler.GetByID ⟨[], [], [], [], [], []⟩ "5").status = 404 ∧
    (TeamHandler.GetByID ⟨[], [], [], [], [], []⟩ "5").status = 404 ∧
    (TournamentHandler.GetByID ⟨[], [], [], [], [], []⟩ "5").status = 404 ∧
    (MatchHandler.GetByID ⟨[], [], [], [], [], []⟩ "5").status = 404 ∧
    ((TeamHandler.AddPlayer ⟨[], [], [], [], [], []⟩ 5 6).1).status = 400 ∧
    ((TournamentHandler.AddTeam ⟨[], [], [], [], [], []⟩ 5 6).1).status = 400 :=
  ⟨rfl,
    ((c5_notfound_status_mapping ⟨[], [], [], [], [], []⟩ "5" 5 6 6).1 rfl).1
      (by simp),
    ((c5_notfound_status_mapping ⟨[], [], [], [], [], []⟩ "5" 5 6 6).1 rfl).2.1
      (by simp),
    ((c5_notfound_status_mapping ⟨[], [], [], [], [], []⟩ "5" 5 6 6).1
      rfl).2.2.1 (by simp),
    ((c5_notfound_status_mapping ⟨[], [], [], [], [], []⟩ "5" 5 6 6).1
      rfl).2.2.2 (by simp),
    (c5_notfound_status_mapping ⟨[], [], [], [], [], []⟩ "5" 5 6 6).2.1
      (by simp),
    (c5_notfound_status_mapping ⟨[], [], [], [], [], []⟩ "5" 5 6 6).2.2
      (by simp)⟩

/-- C6: a successful repository `Update` of a player, team, tournament, or
match leaves every row's identifier and creation timestamp unchanged,
overwrites exactly the mutable fields of the rows matching the updated id,
leaves all other rows untouched, and writes to no other table. -/
theorem c6_update_frame (db : DB) :
    (∀ p db', PostgresPlayerRepository.Update db p = .ok db' →
      db'.teams = db.teams ∧ db'.tournaments = db.tournaments ∧
      db'.matchRows = db.matchRows ∧ db'.teamPlayers = db.teamPlayers ∧
      db'.tournamentTeams = db.tournamentTeams ∧
      db'.players.length = db.players.length ∧
      ∀ (i : Nat) (q : Player), db.players[i]? = some q →
        ∃ q' : Player, db'.players[i]? = some q' ∧ q'.id = q.id ∧
          q'.createdAt = q.createdAt ∧
          (q.id = p.id → q'.name = p.name ∧ q'.dateBirth = p.dateBirth) ∧
          (q.id ≠ p.id → q' = q)) ∧
    (∀ t db', PostgresTeamRepository.Update db t = .ok db' →
      db'.players = db.players ∧ db'.tournaments = db.tournaments ∧
      db'.matchRows = db.matchRows ∧ db'.teamPlayers = db.teamPlayers ∧
      db'.tournamentTeams = db.tournamentTeams ∧
      db'.teams.length = db.teams.length ∧
      ∀ (i : Nat) (q : Team), db.teams[i]? = some q →
        ∃ q' : Team, db'.teams[i]? = some q' ∧ q'.id = q.id ∧
          q'.createdAt = q.createdAt ∧
          (q.id = t.id → q'.name = t.name) ∧
          (q.id ≠ t.id → q' = q)) ∧
    (∀ t db', PostgresTournamentRepository.Update db t = .ok db' →
      db'.players = db.players ∧ db'.teams = db.teams ∧
      db'.matchRows = db.matchRows ∧ db'.teamPlayers = db.teamPlayers ∧
      db'.tournamentTeams = db.tournamentTeams ∧
      db'.tournaments.length = db.tournaments.length ∧
      ∀ (i : Nat) (q : Tournament), db.tournaments[i]? = some q →
        ∃ q' : Tournament, db'.tournaments[i]? = some q' ∧ q'.id = q.id ∧
          q'.createdAt = q.createdAt ∧
          (q.id = t.id → q'.name = t.name) ∧
          (q.id ≠ t.id → q' = q)) ∧
    (∀ m db', PostgresMatchRepository.Update db m = .ok db' →
      db'.players = db.players ∧ db'.teams = db.teams ∧
      db'.tournaments = db.tournaments ∧ db'.teamPlayers = db.teamPlayers ∧
      db'.tournamentTeams = db.tournamentTeams ∧
      db'.matchRows.length = db.matchRows.length ∧
      ∀ (i : Nat) (q : Match), db.matchRows[i]? = some q →
        ∃ q' : Match, db'.matchRows[i]? = some q' ∧ q'.id = q.id ∧
          q'.createdAt = q.createdAt ∧
          (q.id = m.id → q'.matchNumber = m.matchNumber ∧ q'.date = m.date ∧
            q'.team1Id = m.team1Id ∧ q'.team2Id = m.team2Id ∧
            q'.goalScoredTeam1 = m.goalScoredTeam1 ∧
            q'.goalScoredTeam2 = m.goalScoredTeam2) ∧
          (q.id ≠ m.id → q' = q)) := by
  refine ⟨?_, ?_, ?_, ?_⟩
  · intro p db' h
    unfold PostgresPlayerRepository.Update at h
    split at h
    · injection h with h
      subst h
      refine ⟨rfl, rfl, rfl, rfl, rfl, by simp, ?_⟩
      intro i q hq
      refine ⟨if q.id = p.id then
          { q with name := p.name, dateBirth := p.dateBirth } else q,
        by simp [List.getElem?_map, hq], by split <;> rfl, by split <;> rfl,
        ?_, ?_⟩
      · intro hid
        rw [if_pos hid]
        exact ⟨rfl, rfl⟩
      · intro hid
        rw [if_neg hid]
    · exact absurd h (by simp)
  · intro t db' h
    unfold PostgresTeamRepository.Update at h
    split at h
    · injection h with h
      subst h
      refine ⟨rfl, rfl, rfl, rfl, rfl, by simp, ?_⟩
      intro i q hq
      refine ⟨if q.id = t.id then { q with name := t.name } else q,
        by simp [List.getElem?_map, hq], by split <;> rfl, by split <;> rfl,
        ?_, ?_⟩
      · intro hid
        rw [if_pos hid]
      · intro hid
        rw [if_neg hid]
    · exact absurd h (by simp)
  · intro t db' h
    unfold PostgresTournamentRepository.Update at h
    split at h
    · injection h with h
      subst h
      refine ⟨rfl, rfl, rfl, rfl, rfl, by simp, ?_⟩
      intro i q hq
      refine ⟨if q.id = t.id then { q with name := t.name } else q,
        by simp [List.getElem?_map, hq], by split <;> rfl, by split <;> rfl,
        ?_, ?_⟩
      · intro hid
        rw [if_pos hid]
      · intro hid
        rw [if_neg hid]
    · exact absurd h (by simp)
  · intro m db' h
    unfold PostgresMatchRepository.Update at h
    split at h
    · injection h with h
      subst h
      refine ⟨rfl, rfl, rfl, rfl, rfl, by simp, ?_⟩
      intro i q hq
      refine ⟨if q.id = m.id then
          { q with
            matchNumber := m.matchNumber
            date := m.date
            team1Id := m.team1Id
            team2Id := m.team2Id
            goalScoredTeam1 := m.goalScoredTeam1
            goalScoredTeam2 := m.goalScoredTeam2 }
        else q,
        by simp [List.getElem?_map, hq], by split <;> rfl, by split <;> rfl,
        ?_, ?_⟩
      · intro hid
        rw [if_pos hid]
        exact ⟨rfl, rfl, rfl, rfl, rfl, rfl⟩
      · intro hid
        rw [if_neg hid]
    · exact absurd h (by simp)

/-- C6 witness: updating player 1 from name "a" (created at 3) to name "b"
succeeds and the stored row keeps id 1 and creation timestamp 3. -/
theorem c6_witness :
    PostgresPlayerRepository.Update ⟨[⟨1, "a", 2, 3⟩], [], [], [], [], []⟩
        ⟨1, "b", 4, 9⟩
      = Except.ok ⟨[⟨1, "b", 4, 3⟩], [], [], [], [], []⟩ ∧
    ∃ q', (⟨[⟨1, "b", 4, 3⟩], [], [], [], [], []⟩ : DB).players[0]? = some q' ∧
      q'.id = 1 ∧ q'.createdAt = 3 := by
  have hup : PostgresPlayerRepository.Update ⟨[⟨1, "a", 2, 3⟩], [], [], [], [], []⟩
      ⟨1, "b", 4, 9⟩ = Except.ok ⟨[⟨1, "b", 4, 3⟩], [], [], [], [], []⟩ := by
    rfl
  refine ⟨hup, ?_⟩
  obtain ⟨q', h1, h2, h3, -, -⟩ :=
    ((c6_update_frame ⟨[⟨1, "a", 2, 3⟩], [], [], [], [], []⟩).1
      ⟨1, "b", 4, 9⟩ _ hup).2.2.2.2.2.2 0 ⟨1, "a", 2, 3⟩ rfl
  exact ⟨q', h1, h2, h3⟩

/-- C7: creating a player (fresh id generated by `NewPlayer`) and then
fetching by that id returns a player with exactly the created name,
date of birth, and identifier. -/
theorem c7_player_roundtrip (db : DB) (name : String) (dateBirth id now : Nat)
    (db' : DB)
    (h : PlayerUseCase.CreatePlayer db (NewPlayer name dateBirth id now) = .ok db') :
    PlayerUseCase.GetPlayerByID db' id = .ok (NewPlayer name dateBirth id now) ∧
    (NewPlayer name dateBirth id now).name = name ∧
    (NewPlayer name dateBirth id now).dateBirth = dateBirth ∧
    (NewPlayer name dateBirth id now).id = id := by
  unfold PlayerUseCase.CreatePlayer PostgresPlayerRepository.Create at h
  split at h
  · exact absurd h (by simp)
  · rename_i hnot
    injection h with h
    subst h
    refine ⟨?_, rfl, rfl, rfl⟩
    unfold PlayerUseCase.GetPlayerByID PostgresPlayerRepository.GetByID
    have h1 : db.players.find? (fun p => p.id = id) = none := by
      rw [List.find?_eq_none]
      intro x hx
      simp only [Bool.not_eq_true, List.any_eq_false] at hnot
      have := hnot x hx
      simp only [NewPlayer] at this
      simpa using this
    have hfind : (db.players ++ [NewPlayer name dateBirth id now]).find?
        (fun p => p.id = id) = some (NewPlayer name dateBirth id now) := by
      rw [List.find?_append, h1]
      simp [NewPlayer]
    rw [hfind]

/-- C7 witness: against the empty store, creating player ("n", birth 1)
with generated id 2 and fetching id 2 returns that same player. -/
theorem c7_witness :
    PlayerUseCase.CreatePlayer ⟨[], [], [], [], [], []⟩ (NewPlayer "n" 1 2 3)
      = Except.ok ⟨[NewPlayer "n" 1 2 3], [], [], [], [], []⟩ ∧
    PlayerUseCase.GetPlayerByID ⟨[NewPlayer "n" 1 2 3], [], [], [], [], []⟩ 2
      = Except.ok (NewPlayer "n" 1 2 3) :=
  ⟨rfl, (c7_player_roundtrip ⟨[], [], [], [], [], []⟩ "n" 1 2 3 _ rfl).1⟩

/-- C8: deleting an id that matches no stored row (zero rows affected)
returns the entity's not-found error for each of the four entities —
never a silent success. -/
theorem c8_delete_missing_errors (db : DB) (id : Nat) :
    ((∀ p ∈ db.players, p.id ≠ id) →
      PlayerUseCase.DeletePlayer db id = .error "player not found") ∧
    ((∀ t ∈ db.teams, t.id ≠ id) →
      TeamUseCase.DeleteTeam db id = .error "team not found") ∧
    ((∀ t ∈ db.tournaments, t.id ≠ id) →
      TournamentUseCase.DeleteTournament db id = .error "tournament not found") ∧
    ((∀ m ∈ db.matchRows, m.id ≠ id) →
      MatchUseCase.DeleteMatch db id = .error "match not found") := by
  refine ⟨?_, ?_, ?_, ?_⟩
  · intro h
    have hc : (db.players.any fun p => decide (p.id = id)) = false := by
      rw [List.any_eq_false]
      intro p hp
      simpa using h p hp
    unfold PlayerUseCase.DeletePlayer PostgresPlayerRepository.Delete
    rw [hc]
    rfl
  · intro h
    have hc : (db.teams.any fun t => decide (t.id = id)) = false := by
      rw [List.any_eq_false]
      intro t ht
      simpa using h t ht
    unfold TeamUseCase.DeleteTeam PostgresTeamRepository.Delete
    rw [hc]
    rfl
  · intro h
    have hc : (db.tournaments.any fun t => decide (t.id = id)) = false := by
      rw [List.any_eq_false]
      intro t ht
      simpa using h t ht
    unfold TournamentUseCase.DeleteTournament PostgresTournamentRepository.Delete
    rw [hc]
    rfl
  · intro h
    have hc : (db.matchRows.any fun m => decide (m.id = id)) = false := by
      rw [List.any_eq_false]
      intro m hm
      simpa using h m hm
    unfold MatchUseCase.DeleteMatch PostgresMatchRepository.Delete
    rw [hc]
    rfl

/-- C8 witness: deleting id 1 from the empty store yields the four
not-found errors. -/
theorem c8_witness :
    PlayerUseCase.DeletePlayer ⟨[], [], [], [], [], []⟩ 1
      = .error "player not found" ∧
    TeamUseCase.DeleteTeam ⟨[], [], [], [], [], []⟩ 1
      = .error "team not found" ∧
    TournamentUseCase.DeleteTournament ⟨[], [], [], [], [], []⟩ 1
      = .error "tournament not found" ∧
    MatchUseCase.DeleteMatch ⟨[], [], [], [], [], []⟩ 1
      = .error "match not found" :=
  ⟨(c8_delete_missing_errors ⟨[], [], [], [], [], []⟩ 1).1 (by simp),
    (c8_delete_missing_errors ⟨[], [], [], [], [], []⟩ 1).2.1 (by simp),
    (c8_delete_missing_errors ⟨[], [], [], [], [], []⟩ 1).2.2.1 (by simp),
    (c8_delete_missing_errors ⟨[], [], [], [], [], []⟩ 1).2.2.2 (by simp)⟩

/-- C9: `RemovePlayerFromTeam` and `RemoveTeamFromTournament` perform no
existence check and discard the affected-row count: for every pair of
identifiers — including pairs with no matching membership row — they
return success, and the store afterwards holds exactly the membership
rows different from the removed pair. -/
theorem c9_remove_relations_never_fail (db : DB) (a b : Nat) :
    (∃ db', TeamUseCase.RemovePlayerFromTeam db a b = .ok db' ∧
      ∀ r : Nat × Nat, r ∈ db'.teamPlayers ↔
        r ∈ db.teamPlayers ∧ ¬ (r.1 = a ∧ r.2 = b)) ∧
    (∃ db', TournamentUseCase.RemoveTeamFromTournament db a b = .ok db' ∧
      ∀ r : Nat × Nat, r ∈ db'.tournamentTeams ↔
        r ∈ db.tournamentTeams ∧ ¬ (r.1 = a ∧ r.2 = b)) := by
  constructor
  · refine ⟨_, rfl, ?_⟩
    intro r
    simp [TeamUseCase.RemovePlayerFromTeam,
      PostgresTeamRepository.RemovePlayer, List.mem_filter]
    tauto
  · refine ⟨_, rfl, ?_⟩
    intro r
    simp [TournamentUseCase.RemoveTeamFromTournament,
      PostgresTournamentRepository.RemoveTeam, List.mem_filter]
    tauto

/-- C10: whenever an `Update` handler (player, team, tournament, match)
responds 200, the serialized entity was built only from the path
identifier and the request body: its `created_at` is the zero timestamp
(not the stored creation time), its id is the parsed path id, and its
remaining fields come from the body. -/
theorem c10_update_response_from_request (db : DB) (idStr : String) :
    (∀ (body : Option PlayerHandler.Input) (st : Nat) (p : Player) (db' : DB),
      PlayerHandler.Update db idStr body = (.ok st p, db') →
      st = 200 ∧ p.createdAt = 0 ∧ uuidParse idStr = some p.id ∧
      ∃ input, body = some input ∧ p.name = input.name ∧
        parseDateTime input.dateBirth = some p.dateBirth) ∧
    (∀ (body : Option TeamHandler.Input) (st : Nat) (t : Team) (db' : DB),
      TeamHandler.Update db idStr body = (.ok st t, db') →
      st = 200 ∧ t.createdAt = 0 ∧ uuidParse idStr = some t.id ∧
      ∃ input, body = some input ∧ t.name = input.name) ∧
    (∀ (body : Option TournamentHandler.Input) (st : Nat) (t : Tournament)
        (db' : DB),
      TournamentHandler.Update db idStr body = (.ok st t, db') →
      st = 200 ∧ t.createdAt = 0 ∧ uuidParse idStr = some t.id ∧
      ∃ input, body = some input ∧ t.name = input.name) ∧
    (∀ (body : Option MatchHandler.Input) (st : Nat) (m : Match) (db' : DB),
      MatchHandler.Update db idStr body = (.ok st m, db') →
      st = 200 ∧ m.createdAt = 0 ∧ uuidParse idStr = some m.id ∧
      ∃ input, body = some input ∧ m.matchNumber = input.matchNumber ∧
        parseDateTime input.date = some m.date ∧
        uuidParse input.team1Id = some m.team1Id ∧
        uuidParse input.team2Id = some m.team2Id ∧
        m.goalScoredTeam1 = input.goalScoredTeam1 ∧
        m.goalScoredTeam2 = input.goalScoredTeam2) := by
  refine ⟨?_, ?_, ?_, ?_⟩
  · intro body st p db' h
    unfold PlayerHandler.Update at h
    split at h
    · simp at h
    · rename_i id hid
      split at h
      · simp at h
      · rename_i input
        split at h
        · simp at h
        · rename_i dateBirth hdate
          dsimp only [] at h
          split at h
          · simp at h
          · rw [Prod.mk.injEq] at h
            obtain ⟨h1, h2⟩ := h
            injection h1 with hst hp
            subst hst
            subst hp
            exact ⟨rfl, rfl, hid, input, rfl, rfl, hdate⟩
  · intro body st t db' h
    unfold TeamHandler.Update at h
    split at h
    · simp at h
    · rename_i id hid
      split at h
      · simp at h
      · rename_i input
        dsimp only [] at h
        split at h
        · simp at h
        · rw [Prod.mk.injEq] at h
          obtain ⟨h1, h2⟩ := h
          injection h1 with hst ht
          subst hst
          subst ht
          exact ⟨rfl, rfl, hid, input, rfl, rfl⟩
  · intro body st t db' h
    unfold TournamentHandler.Update at h
    split at h
    · simp at h
    · rename_i id hid
      split at h
      · simp at h
      · rename_i input
        dsimp only [] at h
        split at h
        · simp at h
        · rw [Prod.mk.injEq] at h
          obtain ⟨h1, h2⟩ := h
          injection h1 with hst ht
          subst hst
          subst ht
          exact ⟨rfl, rfl, hid, input, rfl, rfl⟩
  · intro body st m db' h
    unfold MatchHandler.Update at h
    split at h
    · simp at h
    · rename_i id hid
      split at h
      · simp at h
      · rename_i input
        split at h
        · simp at h
        · rename_i date hdate
          split at h
          · simp at h
          · rename_i team1Id hteam1
            split at h
            · simp at h
            · rename_i team2Id hteam2
              dsimp only [] at h
              split at h
              · simp at h
              · rw [Prod.mk.injEq] at h
                obtain ⟨h1, h2⟩ := h
                injection h1 with hst hm
                subst hst
                subst hm
                exact ⟨rfl, rfl, hid, input, rfl, rfl, hdate,
                  hteam1, hteam2, rfl, rfl⟩

/-- C10 witness: a successful PUT of player 5 (stored created_at 2)
responds 200 with a body whose created_at is 0, while the stored row keeps
created_at 2. -/
theorem c10_witness :
    PlayerHandler.Update ⟨[⟨5, "a", 1, 2⟩], [], [], [], [], []⟩ "5"
        (some ⟨"b", "3"⟩)
      = (HResp.ok 200 ⟨5, "b", 3, 0⟩, ⟨[⟨5, "b", 3, 2⟩], [], [], [], [], []⟩) ∧
    (⟨5, "b", 3, 0⟩ : Player).createdAt = 0 :=
  ⟨rfl,
    ((c10_update_response_from_request ⟨[⟨5, "a", 1, 2⟩], [], [], [], [], []⟩
      "5").1 (some ⟨"b", "3"⟩) 200 ⟨5, "b", 3, 0⟩ _ rfl).2.1⟩
